import Mathlib

/-
Shallow embedding of the game-session synchronization engine of the chess
client: the zustand store (gameStore), the channel hook (useChessWebSocket)
and the board interaction handler (ChessBoard2D.handleSquareClick).

JavaScript `undefined`/`null` values are modelled with `Option` (`none` is
undefined-or-null); JS truthiness on nullable booleans and strings is made
explicit via `jsTruthy` and `jsStrTruthy`.  Async request/response calls are
modelled as total functions of the eventual outcome (transport error, parsed
response), mirroring the code's try/catch structure; this is what makes the
"never raises" parts of the error-handling contracts representable.
-/

namespace ChessApp

/-- Side to move / piece colour: the string union `'white' | 'black'`. -/
inductive Side
  | white
  | black
deriving DecidableEq, Repr

/-- `GameMode = 'human_vs_ai' | 'ai_vs_ai'` from the store. -/
inductive GameMode
  | human_vs_ai
  | ai_vs_ai
deriving DecidableEq, Repr

/-- `GameStatus = 'waiting' | 'active' | 'paused' | 'completed'`. -/
inductive GameStatus
  | waiting
  | active
  | paused
  | completed
deriving DecidableEq, Repr

/-- `Difficulty = 'EASY' | 'MEDIUM' | 'HARD' | 'MASTER'`. -/
inductive Difficulty
  | EASY
  | MEDIUM
  | HARD
  | MASTER
deriving DecidableEq, Repr

/-- The `opening` sub-object `{ name: string | null; eco: string | null }`. -/
structure OpeningInfo where
  name : Option String
  eco : Option String
deriving DecidableEq, Repr

/-- `lastMove: { from: string; to: string }` (field names adjusted because
`from` is a Lean keyword). -/
structure LastMove where
  fromSq : String
  toSq : String
deriving DecidableEq, Repr

/-- JS truthiness of a nullable/optional boolean: truthy iff present and
`true`. -/
def jsTruthy (b : Option Bool) : Bool :=
  b == some true

/-- JS truthiness of a nullable/optional string: truthy iff present and
non-empty. -/
def jsStrTruthy (s : Option String) : Bool :=
  match s with
  | none => false
  | some str => !str.isEmpty

/-- The store's `GameState` record.  Fields that `updateFromServer` copies
verbatim from the payload can become JS `undefined` after an update, so they
are `Option`s; the four fields guarded by `|| default` in `updateFromServer`
(`moveHistory`, `evaluation`, `opening`, `legalMoves`) can never be
undefined and are plain.  The last three fields are the local-only
Interaction Overlay. -/
structure GameState where
  id : Option String
  mode : Option GameMode
  fen : Option String
  status : Option GameStatus
  whiteDifficulty : Option Difficulty
  blackDifficulty : Option Difficulty
  moveHistory : List String
  evaluation : Int
  opening : OpeningInfo
  turn : Option Side
  isCheck : Option Bool
  isCheckmate : Option Bool
  isStalemate : Option Bool
  isDraw : Option Bool
  legalMoves : List String
  isWhiteHuman : Option Bool
  selectedSquare : Option String
  highlightedMoves : List String
  lastMove : Option LastMove
deriving DecidableEq, Repr

/-- `initialGameState` from the store. -/
def initialGameState : GameState where
  id := none
  mode := some GameMode.human_vs_ai
  fen := some "rnbqkbnr/pppppppp/8/8/8/8/PPPPPPPP/RNBQKBNR w KQkq - 0 1"
  status := some GameStatus.waiting
  whiteDifficulty := some Difficulty.MEDIUM
  blackDifficulty := some Difficulty.MEDIUM
  moveHistory := []
  evaluation := 0
  opening := { name := none, eco := none }
  turn := some Side.white
  isCheck := some false
  isCheckmate := some false
  isStalemate := some false
  isDraw := some false
  legalMoves := []
  isWhiteHuman := some true
  selectedSquare := none
  highlightedMoves := []
  lastMove := none

/-- The whole zustand store state.  `isThinking` backs the `setIsThinking`
calls made by the channel hook (a UI busy flag; the store file in this
snapshot predates it, so it is carried here as a plain boolean alongside the
declared `isConnected`/`isLoading`/`error` flags). -/
structure StoreState where
  game : GameState
  isConnected : Bool
  isLoading : Bool
  isThinking : Bool
  error : Option String
deriving DecidableEq, Repr

/-- The store's initial state. -/
def initialStore : StoreState where
  game := initialGameState
  isConnected := false
  isLoading := false
  isThinking := false
  error := none

/-- An inbound authoritative snapshot payload (`serverGame: any`): every
field may be absent. -/
structure ServerGame where
  id : Option String
  mode : Option GameMode
  fen : Option String
  status : Option GameStatus
  whiteDifficulty : Option Difficulty
  blackDifficulty : Option Difficulty
  moveHistory : Option (List String)
  evaluation : Option Int
  opening : Option OpeningInfo
  turn : Option Side
  isCheck : Option Bool
  isCheckmate : Option Bool
  isStalemate : Option Bool
  isDraw : Option Bool
  legalMoves : Option (List String)
  isWhiteHuman : Option Bool
deriving DecidableEq, Repr

/-- A payload carrying no fields at all. -/
def emptyServerGame : ServerGame where
  id := none
  mode := none
  fen := none
  status := none
  whiteDifficulty := none
  blackDifficulty := none
  moveHistory := none
  evaluation := none
  opening := none
  turn := none
  isCheck := none
  isCheckmate := none
  isStalemate := none
  isDraw := none
  legalMoves := none
  isWhiteHuman := none

/-- `updateFromServer` on the game record: copies every authoritative field
from the payload (absent fields land as undefined), with `|| default`
fallbacks on `moveHistory`, `evaluation`, `opening` and `legalMoves`; the
spread of the previous state keeps the three Interaction Overlay fields. -/
def updateFromServer (g : GameState) (s : ServerGame) : GameState :=
  { g with
    id := s.id
    mode := s.mode
    fen := s.fen
    status := s.status
    whiteDifficulty := s.whiteDifficulty
    blackDifficulty := s.blackDifficulty
    moveHistory := s.moveHistory.getD []
    evaluation := s.evaluation.getD 0
    opening := s.opening.getD { name := none, eco := none }
    turn := s.turn
    isCheck := s.isCheck
    isCheckmate := s.isCheckmate
    isStalemate := s.isStalemate
    isDraw := s.isDraw
    legalMoves := s.legalMoves.getD []
    isWhiteHuman := s.isWhiteHuman }

/-- Store action `updateFromServer` lifted to the whole store state. -/
def applyServerGame (st : StoreState) (s : ServerGame) : StoreState :=
  { st with game := updateFromServer st.game s }

/-- Narrow setter `setSelectedSquare`. -/
def setSelectedSquare (st : StoreState) (square : Option String) : StoreState :=
  { st with game := { st.game with selectedSquare := square } }

/-- Narrow setter `setHighlightedMoves`. -/
def setHighlightedMoves (st : StoreState) (moves : List String) : StoreState :=
  { st with game := { st.game with highlightedMoves := moves } }

/-- Narrow setter `setLastMove`. -/
def setLastMove (st : StoreState) (mv : Option LastMove) : StoreState :=
  { st with game := { st.game with lastMove := mv } }

/-- `setIsConnected`. -/
def setIsConnected (st : StoreState) (b : Bool) : StoreState :=
  { st with isConnected := b }

/-- `setIsLoading`. -/
def setIsLoading (st : StoreState) (b : Bool) : StoreState :=
  { st with isLoading := b }

/-- `setIsThinking` (see `StoreState.isThinking`). -/
def setIsThinking (st : StoreState) (b : Bool) : StoreState :=
  { st with isThinking := b }

/-- `setError`. -/
def setError (st : StoreState) (e : Option String) : StoreState :=
  { st with error := e }

/-- `resetGame`: replaces the game with `initialGameState` and clears the
error flag. -/
def resetGame (st : StoreState) : StoreState :=
  { st with game := initialGameState, error := none }

/-- Projection of a game record to its authoritative fields (everything but
the Interaction Overlay). -/
structure AuthFields where
  id : Option String
  mode : Option GameMode
  fen : Option String
  status : Option GameStatus
  whiteDifficulty : Option Difficulty
  blackDifficulty : Option Difficulty
  moveHistory : List String
  evaluation : Int
  opening : OpeningInfo
  turn : Option Side
  isCheck : Option Bool
  isCheckmate : Option Bool
  isStalemate : Option Bool
  isDraw : Option Bool
  legalMoves : List String
  isWhiteHuman : Option Bool
deriving DecidableEq, Repr

/-- The authoritative fields of a game record. -/
def authOf (g : GameState) : AuthFields where
  id := g.id
  mode := g.mode
  fen := g.fen
  status := g.status
  whiteDifficulty := g.whiteDifficulty
  blackDifficulty := g.blackDifficulty
  moveHistory := g.moveHistory
  evaluation := g.evaluation
  opening := g.opening
  turn := g.turn
  isCheck := g.isCheck
  isCheckmate := g.isCheckmate
  isStalemate := g.isStalemate
  isDraw := g.isDraw
  legalMoves := g.legalMoves
  isWhiteHuman := g.isWhiteHuman

/-- The authoritative fields that `updateFromServer` produces from a payload
alone: present fields verbatim, absent plain fields as undefined, absent
guarded fields as their `||` defaults. -/
def snapshotAuth (s : ServerGame) : AuthFields where
  id := s.id
  mode := s.mode
  fen := s.fen
  status := s.status
  whiteDifficulty := s.whiteDifficulty
  blackDifficulty := s.blackDifficulty
  moveHistory := s.moveHistory.getD []
  evaluation := s.evaluation.getD 0
  opening := s.opening.getD { name := none, eco := none }
  turn := s.turn
  isCheck := s.isCheck
  isCheckmate := s.isCheckmate
  isStalemate := s.isStalemate
  isDraw := s.isDraw
  legalMoves := s.legalMoves.getD []
  isWhiteHuman := s.isWhiteHuman

/-- Inbound push frames carrying an authoritative snapshot: `state` and
`move` on the primary channel, `move` and `game_over` on the control
channel.  A `move` frame may carry an engine move (`aiMove.uci` on the
primary channel, `move.uci` on the control channel). -/
inductive PushFrame
  | state (g : ServerGame)
  | move (g : ServerGame) (aiMove : Option String)
  | game_over (g : ServerGame)
deriving DecidableEq, Repr

/-- The snapshot embedded in a frame. -/
def frameSnapshot : PushFrame → ServerGame
  | PushFrame.state g => g
  | PushFrame.move g _ => g
  | PushFrame.game_over g => g

/-- `{ from: uci.substring(0, 2), to: uci.substring(2, 4) }`. -/
def lastMoveOfUci (uci : String) : LastMove :=
  { fromSq := uci.take 2, toSq := (uci.drop 2).take 2 }

/-- The `onmessage` dispatch for snapshot-bearing frames: every frame first
applies `updateFromServer` with its embedded snapshot; a `move` frame with an
engine move then records that move's source/destination via `setLastMove`. -/
def processFrame (st : StoreState) : PushFrame → StoreState
  | PushFrame.state g => setIsThinking (applyServerGame st g) false
  | PushFrame.move g aiMove =>
      let st1 := setIsThinking (applyServerGame st g) false
      match aiMove with
      | some uci => setLastMove st1 (some (lastMoveOfUci uci))
      | none => st1
  | PushFrame.game_over g => setIsThinking (applyServerGame st g) false

/-- Processing a sequence of push frames in arrival order. -/
def applyFrames (st : StoreState) (fs : List PushFrame) : StoreState :=
  fs.foldl processFrame st

/-- Outcome of the `POST /api/games/:id/move` round trip as seen by
`makeMove`'s try/catch: either the fetch/JSON parse threw, or a parsed
response with a `success` flag and an optional `game` snapshot arrived. -/
inductive MoveOutcome
  | transportError (msg : String)
  | response (success : Bool) (g : Option ServerGame)
deriving DecidableEq, Repr

/-- `makeMove(move)`: returns early when the session id is falsy; on a
transport error the catch block records the message via `setError`; on a
response it applies the snapshot and records the submitted move's
source/destination only when `data.success && data.game` holds, and
otherwise does nothing.  Totality of this function is the embedding of
"never propagates an exception to the caller". -/
def makeMove (st : StoreState) (move : String) (out : MoveOutcome) : StoreState :=
  if !jsStrTruthy st.game.id then st
  else
    match out with
    | MoveOutcome.transportError msg => setError st (some msg)
    | MoveOutcome.response success g =>
        match success, g with
        | true, some snap =>
            setLastMove (applyServerGame st snap) (some (lastMoveOfUci move))
        | _, _ => st

/-- Outcome of the `POST /api/games` round trip as seen by `createGame`'s
try/catch. -/
inductive CreateOutcome
  | transportError (msg : String)
  | response (success : Bool) (g : Option ServerGame)
deriving DecidableEq, Repr

/-- `createGame(options)`: sets the loading flag and clears the error, then
either applies the returned snapshot (`data.success && data.game`), or
throws `Error('Failed to create game')` into its own catch block, which
records the message; a transport error is recorded the same way.  The
`finally` block clears the loading flag on every path.  (The socket
connection made on success is channel-lifecycle state, modelled separately
by `connectToGame`/`connectToAIGame`.) -/
def createGame (st : StoreState) (out : CreateOutcome) : StoreState :=
  let st1 := setError (setIsLoading st true) none
  let st2 :=
    match out with
    | CreateOutcome.transportError msg => setError st1 (some msg)
    | CreateOutcome.response success g =>
        match success, g with
        | true, some snap => applyServerGame st1 snap
        | _, _ => setError st1 (some "Failed to create game")
  setIsLoading st2 false

/-- Outcome of the legal-moves fetch as seen by `getLegalMovesForSquare`:
either the fetch/JSON parse threw, or a parsed response arrived whose
`moves` field may be absent. -/
inductive LegalOutcome
  | transportError
  | response (moves : Option (List String))
deriving DecidableEq, Repr

/-- `getLegalMovesForSquare(square)`: empty list when the session id is
falsy, empty list from the catch block on a transport error, and otherwise
`data.moves || []`.  Totality is the embedding of "never raises". -/
def getLegalMovesForSquare (st : StoreState) (square : String)
    (out : LegalOutcome) : List String :=
  if !jsStrTruthy st.game.id then []
  else
    match out with
    | LegalOutcome.transportError => []
    | LegalOutcome.response moves => moves.getD []

/-- A board piece as stored in the `boardState` map: the FEN character and
the colour derived from its case. -/
structure Piece where
  ptype : Char
  color : Side
deriving DecidableEq, Repr

/-- `parseInt(char)` on a digit character. -/
def digitVal (ch : Char) : Nat :=
  ch.toNat - 48

/-- The square name built in the parser,
`String.fromCharCode(97 + file) + (rank + 1)`. -/
def squareName (file : Nat) (rank : Int) : String :=
  String.mk [Char.ofNat (97 + file)] ++ toString (rank + 1)

/-- The loop body of the FEN board parser in `ChessBoard2D`: `/` steps to the
next rank, a digit skips files, any other character places a piece (uppercase
means white) and advances one file.  New entries are consed at the head so
that `List.lookup` sees the latest `Map.set` first. -/
def parseFenAux : List Char → Int → Nat → List (String × Piece) → List (String × Piece)
  | [], _, _, acc => acc
  | ch :: rest, rank, file, acc =>
      if ch = '/' then parseFenAux rest (rank - 1) 0 acc
      else if ch.isDigit then parseFenAux rest rank (file + digitVal ch) acc
      else
        parseFenAux rest rank (file + 1)
          ((squareName file rank,
            { ptype := ch
              color := if ch.toUpper = ch then Side.white else Side.black }) :: acc)

/-- The `boardState` memo: empty map when `game.fen` is falsy, otherwise the
first space-separated part of the FEN string (`fen.split(' ')[0]`, i.e. the
characters before the first space) parsed rank 7 downwards. -/
def parseFen (fen : Option String) : List (String × Piece) :=
  if !jsStrTruthy fen then []
  else parseFenAux ((fen.getD "").toList.takeWhile (· != ' ')) 7 0 []

/-- The asynchronous commands `handleSquareClick` issues. -/
inductive Effect
  | makeMoveReq (move : String)
  | fetchLegal (square : String)
deriving DecidableEq, Repr

/-- The board component's state: the shared store plus the
`lastSelectedSquare` ref — the Selection Token compared when a
legal-destination query resolves. -/
structure ClientState where
  store : StoreState
  lastSelected : Option String
deriving DecidableEq, Repr

/-- `isPlayerPiece` inside `handleSquareClick`. -/
def isPlayerPiece (g : GameState) (p : Piece) : Bool :=
  (jsTruthy g.isWhiteHuman && p.color == Side.white && g.turn == some Side.white) ||
  (!jsTruthy g.isWhiteHuman && p.color == Side.black && g.turn == some Side.black) ||
  (g.mode == some GameMode.ai_vs_ai)

/-- `handleSquareClick(square)` (internal game-mode path, no override):
returns the new component state and the asynchronous commands issued.
Branches, in source order: commit a highlighted move; toggle-deselect the
selected square; select a selectable piece (clearing highlights and minting
the token, and fetching destinations unless in automated mode); deselect on
a non-selectable piece while something is selected; deselect on an empty
square. -/
def handleSquareClick (c : ClientState) (square : String) : ClientState × List Effect :=
  let game := c.store.game
  let board := parseFen game.fen
  let move := game.selectedSquare.getD "" ++ square
  if jsStrTruthy game.selectedSquare && game.highlightedMoves.contains move then
    ({ store := setHighlightedMoves (setSelectedSquare c.store none) []
       lastSelected := c.lastSelected },
     [Effect.makeMoveReq move])
  else
    match board.lookup square with
    | some piece =>
        if isPlayerPiece game piece || game.mode == some GameMode.ai_vs_ai then
          if game.selectedSquare == some square then
            ({ store := setHighlightedMoves (setSelectedSquare c.store none) []
               lastSelected := none }, [])
          else
            ({ store := setHighlightedMoves (setSelectedSquare c.store (some square)) []
               lastSelected := some square },
             if game.mode != some GameMode.ai_vs_ai then [Effect.fetchLegal square] else [])
        else if jsStrTruthy game.selectedSquare then
          ({ store := setHighlightedMoves (setSelectedSquare c.store none) []
             lastSelected := none }, [])
        else
          (c, [])
    | none =>
        ({ store := setHighlightedMoves (setSelectedSquare c.store none) []
           lastSelected := none }, [])

/-- The continuation of the background legal-destination fetch for `square`:
`if (lastSelectedSquare.current === square) setHighlightedMoves(moves)` —
the resolved list is applied only when the live Selection Token still equals
the square the query was issued for. -/
def resolveLegalMoves (c : ClientState) (square : String) (moves : List String) : ClientState :=
  if c.lastSelected == some square then
    { c with store := setHighlightedMoves c.store moves }
  else c

/-- WebSocket ready states. -/
inductive WsReadyState
  | connecting
  | opened
  | closing
  | closed
deriving DecidableEq, Repr

/-- The channel-lifecycle state of the hook: the pool of sockets created so
far (indexed by creation order) and the two refs, one per channel kind. -/
structure HookState where
  sockets : List WsReadyState
  wsRef : Option Nat
  aiWsRef : Option Nat
deriving DecidableEq, Repr

/-- `if (ref.current?.readyState === WebSocket.OPEN) ref.current.close();` —
the previous socket is closed only when it is currently OPEN; `close()`
moves it to CLOSING. -/
def closeIfOpen (sockets : List WsReadyState) (ref : Option Nat) : List WsReadyState :=
  match ref with
  | none => sockets
  | some i =>
      if sockets[i]? = some WsReadyState.opened then sockets.set i WsReadyState.closing
      else sockets

/-- `connectToGame`: conditionally close the previous primary socket, create
a new socket (in CONNECTING state) and store it in `wsRef`. -/
def connectToGame (h : HookState) : HookState :=
  let socks := closeIfOpen h.sockets h.wsRef
  { h with sockets := socks ++ [WsReadyState.connecting], wsRef := some socks.length }

/-- `connectToAIGame`: same prologue on the control-channel ref `aiWsRef`. -/
def connectToAIGame (h : HookState) : HookState :=
  let socks := closeIfOpen h.sockets h.aiWsRef
  { h with sockets := socks ++ [WsReadyState.connecting], aiWsRef := some socks.length }

/-- Environment transition: the transport finishes the handshake of a
still-connecting socket (its `onopen` fires). -/
def socketOpens (h : HookState) (i : Nat) : HookState :=
  if h.sockets[i]? = some WsReadyState.connecting then
    { h with sockets := h.sockets.set i WsReadyState.opened }
  else h

/-- Number of sockets currently in the OPEN state. -/
def countOpen (h : HookState) : Nat :=
  h.sockets.countP (· == WsReadyState.opened)

/-- The hook's state before any connection. -/
def hookStart : HookState where
  sockets := []
  wsRef := none
  aiWsRef := none

/-- Helper: the store after the Selection State Machine rewrites the overlay
(selection and highlights) in one step; equal to the composition of the two
narrow setters the handler calls. -/
def withOverlay (st : StoreState) (sel : Option String) (hl : List String) : StoreState :=
  { st with game := { st.game with selectedSquare := sel, highlightedMoves := hl } }

theorem withOverlay_eq_setters (st : StoreState) (sel : Option String) :
    setHighlightedMoves (setSelectedSquare st sel) [] = withOverlay st sel [] := rfl

theorem withOverlay_comp (st : StoreState) (a a' : Option String) (b b' : List String) :
    withOverlay (withOverlay st a b) a' b' = withOverlay st a' b' := rfl

theorem withOverlay_selectedSquare (st : StoreState) (sel : Option String) (hl : List String) :
    (withOverlay st sel hl).game.selectedSquare = sel := rfl

theorem withOverlay_highlightedMoves (st : StoreState) (sel : Option String) (hl : List String) :
    (withOverlay st sel hl).game.highlightedMoves = hl := rfl

theorem isPlayerPiece_withOverlay (st : StoreState) (sel : Option String) (hl : List String)
    (p : Piece) : isPlayerPiece (withOverlay st sel hl).game p = isPlayerPiece st.game p := rfl

/-- Helper: the select branch of `handleSquareClick` — when the commit check
fails, a piece sits on the clicked square, the square is selectable, it is
not the already-selected square, and the mode is not automated, the click
selects the square, clears highlights, mints the token and issues the
legal-destination fetch. -/
theorem clickSelectsPiece (c : ClientState) (s : String) (p : Piece)
    (hcommit : (jsStrTruthy c.store.game.selectedSquare &&
      c.store.game.highlightedMoves.contains (c.store.game.selectedSquare.getD "" ++ s)) = false)
    (hpiece : (parseFen c.store.game.fen).lookup s = some p)
    (hsel : (isPlayerPiece c.store.game p ||
      (c.store.game.mode == some GameMode.ai_vs_ai)) = true)
    (htoggle : (c.store.game.selectedSquare == some s) = false)
    (hmode : (c.store.game.mode != some GameMode.ai_vs_ai) = true) :
    handleSquareClick c s =
      ({ store := withOverlay c.store (some s) [], lastSelected := some s },
       [Effect.fetchLegal s]) := by
  unfold handleSquareClick
  simp only [hcommit, hpiece, hsel, htoggle, hmode, if_false, if_true,
    Bool.false_eq_true, ite_false, ite_true, withOverlay_eq_setters]

/-- Helper: the toggle-deselect branch of `handleSquareClick` — clicking the
already-selected square clears selection, highlights and the token. -/
theorem clickTogglesOff (c : ClientState) (s : String) (p : Piece)
    (hcommit : (jsStrTruthy c.store.game.selectedSquare &&
      c.store.game.highlightedMoves.contains (c.store.game.selectedSquare.getD "" ++ s)) = false)
    (hpiece : (parseFen c.store.game.fen).lookup s = some p)
    (hsel : (isPlayerPiece c.store.game p ||
      (c.store.game.mode == some GameMode.ai_vs_ai)) = true)
    (htoggle : (c.store.game.selectedSquare == some s) = true) :
    handleSquareClick c s =
      ({ store := withOverlay c.store none [], lastSelected := none }, []) := by
  unfold handleSquareClick
  simp only [hcommit, hpiece, hsel, htoggle, if_false, if_true,
    Bool.false_eq_true, ite_false, ite_true, withOverlay_eq_setters]

/-- Helper: every snapshot-bearing push frame rewrites the authoritative
fields purely from its own snapshot. -/
theorem processFrame_auth (st : StoreState) (f : PushFrame) :
    authOf ((processFrame st f).game) = snapshotAuth (frameSnapshot f) := by
  cases f with
  | state g => rfl
  | move g aiMove => cases aiMove <;> rfl
  | game_over g => rfl

/-- Claim C1, counterexample: a `state` frame whose snapshot omits the `fen`
field does NOT leave the prior position in place — after processing, the
position is undefined, not the initial-store position it held before, so an
absent field does not retain its prior value. -/
theorem C1_counterexample :
    emptyServerGame.fen = none ∧
    initialStore.game.fen =
      some "rnbqkbnr/pppppppp/8/8/8/8/PPPPPPPP/RNBQKBNR w KQkq - 0 1" ∧
    (processFrame initialStore (PushFrame.state emptyServerGame)).game.fen = none ∧
    (processFrame initialStore (PushFrame.state emptyServerGame)).game.fen ≠
      initialStore.game.fen := by
  refine ⟨rfl, rfl, rfl, ?_⟩
  decide

/-- Claim C1 (amended): after any nonempty sequence of `state`/`move`/
`game_over` frames, every authoritative field is determined by the
last-processed frame's snapshot alone (`snapshotAuth`): present fields take
the snapshot's value, absent plainly-copied fields become undefined, and
absent defaulted fields (move list, evaluation, opening, legal moves)
revert to their defaults — prior values are never retained. -/
theorem C1_last_frame_determines_auth (st : StoreState) (fs : List PushFrame)
    (f : PushFrame) :
    authOf ((applyFrames st (fs ++ [f])).game) = snapshotAuth (frameSnapshot f) := by
  have h : applyFrames st (fs ++ [f]) = processFrame (applyFrames st fs) f := by
    simp [applyFrames]
  rw [h]
  exact processFrame_auth _ f

/-- Claim C2, counterexample: a push update whose position differs from the
displayed position does NOT clear the selection or the highlight set — both
survive `updateFromServer` unchanged. -/
theorem C2_counterexample :
    ((processFrame
        { initialStore with game :=
          { initialGameState with selectedSquare := some "e2", highlightedMoves := ["e2e4"] } }
        (PushFrame.state { emptyServerGame with
          fen := some "rnbqkbnr/pppppppp/8/8/4P3/8/PPPP1PPP/RNBQKBNR b KQkq - 0 1" })).game.fen ≠
      { initialStore with game :=
          { initialGameState with selectedSquare := some "e2", highlightedMoves := ["e2e4"] }
        }.game.fen) ∧
    (processFrame
        { initialStore with game :=
          { initialGameState with selectedSquare := some "e2", highlightedMoves := ["e2e4"] } }
        (PushFrame.state { emptyServerGame with
          fen := some "rnbqkbnr/pppppppp/8/8/4P3/8/PPPP1PPP/RNBQKBNR b KQkq - 0 1" })).game.selectedSquare =
      some "e2" ∧
    (processFrame
        { initialStore with game :=
          { initialGameState with selectedSquare := some "e2", highlightedMoves := ["e2e4"] } }
        (PushFrame.state { emptyServerGame with
          fen := some "rnbqkbnr/pppppppp/8/8/4P3/8/PPPP1PPP/RNBQKBNR b KQkq - 0 1" })).game.highlightedMoves =
      ["e2e4"] := by
  refine ⟨by decide, rfl, rfl⟩

/-- Claim C2 (amended): an authoritative push update whose position differs
from the displayed position leaves the current selection and the highlight
set exactly unchanged — the dispatcher never clears them. -/
theorem C2_push_update_preserves_selection (st : StoreState) (f : PushFrame)
    (hfen : (processFrame st f).game.fen ≠ st.game.fen) :
    (processFrame st f).game.selectedSquare = st.game.selectedSquare ∧
    (processFrame st f).game.highlightedMoves = st.game.highlightedMoves := by
  cases f with
  | state g => exact ⟨rfl, rfl⟩
  | move g aiMove => cases aiMove <;> exact ⟨rfl, rfl⟩
  | game_over g => exact ⟨rfl, rfl⟩

theorem C2_witness :
    (processFrame
        { initialStore with game := { initialGameState with selectedSquare := some "e2" } }
        (PushFrame.state { emptyServerGame with fen := some "8/8/8/8/8/8/8/8 w - - 0 1" })).game.selectedSquare =
      { initialStore with game := { initialGameState with selectedSquare := some "e2" }
        }.game.selectedSquare ∧
    (processFrame
        { initialStore with game := { initialGameState with selectedSquare := some "e2" } }
        (PushFrame.state { emptyServerGame with fen := some "8/8/8/8/8/8/8/8 w - - 0 1" })).game.highlightedMoves =
      { initialStore with game := { initialGameState with selectedSquare := some "e2" }
        }.game.highlightedMoves :=
  C2_push_update_preserves_selection
    { initialStore with game := { initialGameState with selectedSquare := some "e2" } }
    (PushFrame.state { emptyServerGame with fen := some "8/8/8/8/8/8/8/8 w - - 0 1" })
    (by decide)

/-- Claim C3: if square A is selected (its legal-destination query pending)
and a different square B is then selected, the later resolution of A's query
is discarded — the live Selection Token is B, so the highlight set (and the
whole component state) is left unchanged by A's resolution. -/
theorem C3_stale_query_discarded (c : ClientState) (A B : String) (pA pB : Piece)
    (moves : List String) (hAB : B ≠ A)
    (hcommitA : (jsStrTruthy c.store.game.selectedSquare &&
      c.store.game.highlightedMoves.contains (c.store.game.selectedSquare.getD "" ++ A)) = false)
    (hpieceA : (parseFen c.store.game.fen).lookup A = some pA)
    (hselA : (isPlayerPiece c.store.game pA ||
      (c.store.game.mode == some GameMode.ai_vs_ai)) = true)
    (htoggleA : (c.store.game.selectedSquare == some A) = false)
    (hmodeA : (c.store.game.mode != some GameMode.ai_vs_ai) = true)
    (hpieceB : (parseFen c.store.game.fen).lookup B = some pB)
    (hselB : (isPlayerPiece c.store.game pB ||
      (c.store.game.mode == some GameMode.ai_vs_ai)) = true) :
    (handleSquareClick c A).2 = [Effect.fetchLegal A] ∧
    resolveLegalMoves (handleSquareClick (handleSquareClick c A).1 B).1 A moves =
      (handleSquareClick (handleSquareClick c A).1 B).1 := by
  have hBA : (some A == some B) = false := by
    simp only [beq_eq_false_iff_ne, ne_eq, Option.some.injEq]
    exact fun h => hAB h.symm
  have hBA2 : (some B == some A) = false := by
    simp only [beq_eq_false_iff_ne, ne_eq, Option.some.injEq]
    exact hAB
  have h1 := clickSelectsPiece c A pA hcommitA hpieceA hselA htoggleA hmodeA
  refine ⟨by rw [h1], ?_⟩
  rw [h1]
  have h2 := clickSelectsPiece
    { store := withOverlay c.store (some A) [], lastSelected := some A } B pB
    (by simp [withOverlay_selectedSquare, withOverlay_highlightedMoves])
    (by rw [show ({ store := withOverlay c.store (some A) [], lastSelected := some A } :
        ClientState).store.game.fen = c.store.game.fen from rfl]; exact hpieceB)
    (by rw [show ({ store := withOverlay c.store (some A) [], lastSelected := some A } :
        ClientState).store.game.mode = c.store.game.mode from rfl,
        isPlayerPiece_withOverlay]; exact hselB)
    (by simp only [withOverlay_selectedSquare]; exact hBA)
    (by rw [show ({ store := withOverlay c.store (some A) [], lastSelected := some A } :
        ClientState).store.game.mode = c.store.game.mode from rfl]; exact hmodeA)
  rw [withOverlay_comp] at h2
  rw [h2]
  simp [resolveLegalMoves, hBA2]

theorem C3_witness :
    ("d2" : String) ≠ "e2" ∧
    (handleSquareClick ⟨initialStore, none⟩ "e2").2 = [Effect.fetchLegal "e2"] ∧
    resolveLegalMoves
        (handleSquareClick (handleSquareClick ⟨initialStore, none⟩ "e2").1 "d2").1
        "e2" ["e2e4"] =
      (handleSquareClick (handleSquareClick ⟨initialStore, none⟩ "e2").1 "d2").1 := by
  refine ⟨by decide, ?_⟩
  exact C3_stale_query_discarded ⟨initialStore, none⟩ "e2" "d2"
    ⟨'P', Side.white⟩ ⟨'P', Side.white⟩ ["e2e4"]
    (by decide) (by decide) (by decide) (by decide) (by decide) (by decide)
    (by decide) (by decide)

/-- Claim C4: applying a server snapshot leaves all three Interaction
Overlay fields (selection, highlights, last move) exactly unchanged, and
each narrow setter rewrites only its own overlay field, leaving every
authoritative field and the other two overlay fields untouched. -/
theorem C4_overlay_untouched_by_snapshot (st : StoreState) (s : ServerGame)
    (sq : Option String) (mvs : List String) (lm : Option LastMove) :
    ((applyServerGame st s).game.selectedSquare = st.game.selectedSquare ∧
     (applyServerGame st s).game.highlightedMoves = st.game.highlightedMoves ∧
     (applyServerGame st s).game.lastMove = st.game.lastMove) ∧
    (authOf (setSelectedSquare st sq).game = authOf st.game ∧
     (setSelectedSquare st sq).game.selectedSquare = sq ∧
     (setSelectedSquare st sq).game.highlightedMoves = st.game.highlightedMoves ∧
     (setSelectedSquare st sq).game.lastMove = st.game.lastMove) ∧
    (authOf (setHighlightedMoves st mvs).game = authOf st.game ∧
     (setHighlightedMoves st mvs).game.selectedSquare = st.game.selectedSquare ∧
     (setHighlightedMoves st mvs).game.highlightedMoves = mvs ∧
     (setHighlightedMoves st mvs).game.lastMove = st.game.lastMove) ∧
    (authOf (setLastMove st lm).game = authOf st.game ∧
     (setLastMove st lm).game.selectedSquare = st.game.selectedSquare ∧
     (setLastMove st lm).game.highlightedMoves = st.game.highlightedMoves ∧
     (setLastMove st lm).game.lastMove = lm) :=
  ⟨⟨rfl, rfl, rfl⟩, ⟨rfl, rfl, rfl, rfl⟩, ⟨rfl, rfl, rfl, rfl⟩, ⟨rfl, rfl, rfl, rfl⟩⟩

/-- Claim C5: applying the same `move` push frame twice in succession is
idempotent — the whole store state (authoritative fields, last-move
annotation, flags) after two applications equals the state after one. -/
theorem C5_move_frame_idempotent (st : StoreState) (g : ServerGame)
    (aiMove : Option String) :
    processFrame (processFrame st (PushFrame.move g aiMove)) (PushFrame.move g aiMove) =
      processFrame st (PushFrame.move g aiMove) := by
  cases aiMove <;> rfl

/-- Claim C6: `makeMove` (submitMove) is total — no exception reaches the
interaction flow; on a transport error the message is recorded and the game
record is untouched; on an illegal-move rejection (success flag false or no
snapshot) the whole store is unchanged; on success the snapshot's
authoritative fields are applied and the last move is set to the submitted
move's first two and next two characters. -/
theorem C6_submitMove_contract (st : StoreState) (move : String)
    (hid : jsStrTruthy st.game.id = true) :
    (∀ msg, (makeMove st move (MoveOutcome.transportError msg)).game = st.game ∧
       (makeMove st move (MoveOutcome.transportError msg)).error = some msg) ∧
    (∀ g, makeMove st move (MoveOutcome.response false g) = st) ∧
    (makeMove st move (MoveOutcome.response true none) = st) ∧
    (∀ snap,
       authOf (makeMove st move (MoveOutcome.response true (some snap))).game =
         snapshotAuth snap ∧
       (makeMove st move (MoveOutcome.response true (some snap))).game.lastMove =
         some { fromSq := move.take 2, toSq := (move.drop 2).take 2 }) := by
  refine ⟨fun msg => ⟨?_, ?_⟩, fun g => ?_, ?_, fun snap => ⟨?_, ?_⟩⟩ <;>
    simp [makeMove, hid, setError, setLastMove, applyServerGame, updateFromServer,
      authOf, snapshotAuth, lastMoveOfUci]

theorem C6_witness :
    makeMove { initialStore with game := { initialGameState with id := some "game-1" } }
        "e2e4" (MoveOutcome.response true none) =
      { initialStore with game := { initialGameState with id := some "game-1" } } ∧
    (makeMove { initialStore with game := { initialGameState with id := some "game-1" } }
        "e2e4" (MoveOutcome.transportError "network down")).game =
      { initialStore with game := { initialGameState with id := some "game-1" } }.game :=
  ⟨(C6_submitMove_contract
      { initialStore with game := { initialGameState with id := some "game-1" } }
      "e2e4" (by decide)).2.2.1,
   ((C6_submitMove_contract
      { initialStore with game := { initialGameState with id := some "game-1" } }
      "e2e4" (by decide)).1 "network down").1⟩

/-- Claim C7: every failing run of `createGame` (transport error, empty
result, unsuccessful result) leaves the Session record untouched and
surfaces an error message; only a successful run applies the returned
snapshot. -/
theorem C7_createGame_failure_contract (st : StoreState) :
    (∀ msg, (createGame st (CreateOutcome.transportError msg)).game = st.game ∧
       (createGame st (CreateOutcome.transportError msg)).error = some msg) ∧
    (∀ success, (createGame st (CreateOutcome.response success none)).game = st.game ∧
       (createGame st (CreateOutcome.response success none)).error =
         some "Failed to create game") ∧
    (∀ snap, (createGame st (CreateOutcome.response false (some snap))).game = st.game ∧
       (createGame st (CreateOutcome.response false (some snap))).error =
         some "Failed to create game") ∧
    (∀ snap, (createGame st (CreateOutcome.response true (some snap))).game =
       updateFromServer st.game snap) := by
  refine ⟨fun msg => ⟨rfl, rfl⟩, fun success => ?_, fun snap => ⟨rfl, rfl⟩, fun snap => rfl⟩
  cases success <;> exact ⟨rfl, rfl⟩

/-- Claim C8: `getLegalMovesForSquare` (queryLegalDestinations) returns the
empty list on every failure — falsy session id, transport error, or a
response without a `moves` field — and is total (never raises); on success
it returns the server's list verbatim. -/
theorem C8_legalMoves_failure_empty (st : StoreState) (square : String) :
    (jsStrTruthy st.game.id = false →
       ∀ out, getLegalMovesForSquare st square out = []) ∧
    (getLegalMovesForSquare st square LegalOutcome.transportError = []) ∧
    (getLegalMovesForSquare st square (LegalOutcome.response none) = []) ∧
    (∀ moves, jsStrTruthy st.game.id = true →
       getLegalMovesForSquare st square (LegalOutcome.response (some moves)) = moves) := by
  refine ⟨fun hid out => ?_, ?_, ?_, fun moves hid => ?_⟩
  · simp [getLegalMovesForSquare, hid]
  · by_cases hid : jsStrTruthy st.game.id <;> simp [getLegalMovesForSquare, hid]
  · by_cases hid : jsStrTruthy st.game.id <;> simp [getLegalMovesForSquare, hid]
  · simp [getLegalMovesForSquare, hid]

theorem C8_witness :
    getLegalMovesForSquare
        { initialStore with game := { initialGameState with id := some "game-1" } }
        "e2" (LegalOutcome.response (some ["e2e4"])) = ["e2e4"] ∧
    getLegalMovesForSquare initialStore "e2"
        (LegalOutcome.response (some ["e2e4"])) = [] :=
  ⟨(C8_legalMoves_failure_empty
      { initialStore with game := { initialGameState with id := some "game-1" } }
      "e2").2.2.2 ["e2e4"] (by decide),
   (C8_legalMoves_failure_empty initialStore "e2").1 (by decide)
     (LegalOutcome.response (some ["e2e4"]))⟩

/-- Claim C9, counterexample: a previous primary channel that is still
CONNECTING is not closed when a new one is opened — after two back-to-back
`connectToGame` calls the first socket is still connecting, and once both
handshakes finish two channels of the same kind are OPEN simultaneously. -/
theorem C9_counterexample :
    (connectToGame hookStart).sockets[0]? = some WsReadyState.connecting ∧
    (connectToGame (connectToGame hookStart)).sockets[0]? = some WsReadyState.connecting ∧
    (connectToGame (connectToGame hookStart)).sockets[1]? = some WsReadyState.connecting ∧
    countOpen (socketOpens (socketOpens (connectToGame (connectToGame hookStart)) 0) 1) = 2 := by
  decide

theorem closeIfOpen_length (sockets : List WsReadyState) (ref : Option Nat) :
    (closeIfOpen sockets ref).length = sockets.length := by
  cases ref with
  | none => rfl
  | some i =>
      simp only [closeIfOpen]
      split <;> simp

theorem closeIfOpen_getElem (sockets : List WsReadyState) (i : Nat)
    (hlt : i < sockets.length) :
    (closeIfOpen sockets (some i))[i]? =
      if sockets[i]? = some WsReadyState.opened then some WsReadyState.closing
      else sockets[i]? := by
  simp only [closeIfOpen]
  split
  · exact List.getElem?_set_eq_of_lt _ hlt
  · rfl

/-- Claim C9 (amended): opening a new channel of a kind closes the
previously held channel of that kind exactly when the previous channel's
ready-state is OPEN; in every other prior state (connecting, closing,
closed) the previous socket is left as it was and only dereferenced, while
the new connecting socket takes over the reference. -/
theorem C9_close_only_when_open (h : HookState) (i : Nat)
    (hlt : i < h.sockets.length) :
    (h.wsRef = some i →
      ((connectToGame h).sockets[i]? =
        if h.sockets[i]? = some WsReadyState.opened then some WsReadyState.closing
        else h.sockets[i]?) ∧
      (connectToGame h).wsRef = some h.sockets.length ∧
      (connectToGame h).sockets[h.sockets.length]? = some WsReadyState.connecting) ∧
    (h.aiWsRef = some i →
      ((connectToAIGame h).sockets[i]? =
        if h.sockets[i]? = some WsReadyState.opened then some WsReadyState.closing
        else h.sockets[i]?) ∧
      (connectToAIGame h).aiWsRef = some h.sockets.length ∧
      (connectToAIGame h).sockets[h.sockets.length]? = some WsReadyState.connecting) := by
  constructor
  · intro href
    simp only [connectToGame, href]
    refine ⟨?_, ?_, ?_⟩
    · rw [List.getElem?_append_left (by rw [closeIfOpen_length]; exact hlt)]
      exact closeIfOpen_getElem h.sockets i hlt
    · rw [closeIfOpen_length]
    · have h2 := List.getElem?_concat_length (closeIfOpen h.sockets (some i))
        WsReadyState.connecting
      rw [closeIfOpen_length] at h2
      exact h2
  · intro href
    simp only [connectToAIGame, href]
    refine ⟨?_, ?_, ?_⟩
    · rw [List.getElem?_append_left (by rw [closeIfOpen_length]; exact hlt)]
      exact closeIfOpen_getElem h.sockets i hlt
    · rw [closeIfOpen_length]
    · have h2 := List.getElem?_concat_length (closeIfOpen h.sockets (some i))
        WsReadyState.connecting
      rw [closeIfOpen_length] at h2
      exact h2

theorem C9_witness :
    ((connectToGame ⟨[WsReadyState.connecting], some 0, none⟩).sockets[0]? =
      if ([WsReadyState.connecting] : List WsReadyState)[0]? = some WsReadyState.opened
      then some WsReadyState.closing
      else ([WsReadyState.connecting] : List WsReadyState)[0]?) ∧
    (connectToGame ⟨[WsReadyState.connecting], some 0, none⟩).wsRef = some 1 ∧
    (connectToGame ⟨[WsReadyState.connecting], some 0, none⟩).sockets[1]? =
      some WsReadyState.connecting :=
  (C9_close_only_when_open ⟨[WsReadyState.connecting], some 0, none⟩ 0 (by decide)).1 rfl

/-- Claim C10 (implicit): the staleness token compared when a
legal-destination query resolves is the square name itself — the resolution
overwrites the highlight set exactly when the live token equals the query's
square (and leaves the state unchanged when the token is null or another
square), so after deselecting and re-selecting the same square A, a stale
pending query for A still populates the highlights of the new selection. -/
theorem C10_token_is_square_name (c : ClientState) (A : String) (p : Piece)
    (moves : List String)
    (hcommitA : (jsStrTruthy c.store.game.selectedSquare &&
      c.store.game.highlightedMoves.contains (c.store.game.selectedSquare.getD "" ++ A)) = false)
    (hpieceA : (parseFen c.store.game.fen).lookup A = some p)
    (hselA : (isPlayerPiece c.store.game p ||
      (c.store.game.mode == some GameMode.ai_vs_ai)) = true)
    (htoggleA : (c.store.game.selectedSquare == some A) = false)
    (hmodeA : (c.store.game.mode != some GameMode.ai_vs_ai) = true) :
    (∀ d s ms, (d.lastSelected == some s) = false → resolveLegalMoves d s ms = d) ∧
    (∀ d s ms, (d.lastSelected == some s) = true →
       resolveLegalMoves d s ms = { d with store := setHighlightedMoves d.store ms }) ∧
    ((handleSquareClick (handleSquareClick c A).1 A).1.lastSelected = none ∧
     (handleSquareClick (handleSquareClick (handleSquareClick c A).1 A).1 A).1.lastSelected =
       some A ∧
     (resolveLegalMoves
        (handleSquareClick (handleSquareClick (handleSquareClick c A).1 A).1 A).1 A
        moves).store.game.highlightedMoves = moves) := by
  refine ⟨fun d s ms hd => ?_, fun d s ms hd => ?_, ?_⟩
  · simp [resolveLegalMoves, hd]
  · simp [resolveLegalMoves, hd]
  · have h1 := clickSelectsPiece c A p hcommitA hpieceA hselA htoggleA hmodeA
    rw [h1]
    have h2 := clickTogglesOff
      { store := withOverlay c.store (some A) [], lastSelected := some A } A p
      (by simp [withOverlay_selectedSquare, withOverlay_highlightedMoves])
      (by rw [show ({ store := withOverlay c.store (some A) [], lastSelected := some A } :
          ClientState).store.game.fen = c.store.game.fen from rfl]; exact hpieceA)
      (by rw [show ({ store := withOverlay c.store (some A) [], lastSelected := some A } :
          ClientState).store.game.mode = c.store.game.mode from rfl,
          isPlayerPiece_withOverlay]; exact hselA)
      (by simp [withOverlay_selectedSquare])
    rw [withOverlay_comp] at h2
    rw [h2]
    have h3 := clickSelectsPiece
      { store := withOverlay c.store none [], lastSelected := none } A p
      (by simp [withOverlay_selectedSquare, withOverlay_highlightedMoves, jsStrTruthy])
      (by rw [show ({ store := withOverlay c.store none [], lastSelected := none } :
          ClientState).store.game.fen = c.store.game.fen from rfl]; exact hpieceA)
      (by rw [show ({ store := withOverlay c.store none [], lastSelected := none } :
          ClientState).store.game.mode = c.store.game.mode from rfl,
          isPlayerPiece_withOverlay]; exact hselA)
      (by simp [withOverlay_selectedSquare])
      (by rw [show ({ store := withOverlay c.store none [], lastSelected := none } :
          ClientState).store.game.mode = c.store.game.mode from rfl]; exact hmodeA)
    rw [withOverlay_comp] at h3
    rw [h3]
    refine ⟨rfl, rfl, ?_⟩
    simp [resolveLegalMoves, setHighlightedMoves, withOverlay]

theorem C10_witness :
    (handleSquareClick (handleSquareClick ⟨initialStore, none⟩ "e2").1 "e2").1.lastSelected =
      none ∧
    (handleSquareClick (handleSquareClick (handleSquareClick ⟨initialStore, none⟩ "e2").1
        "e2").1 "e2").1.lastSelected = some "e2" ∧
    (resolveLegalMoves
        (handleSquareClick (handleSquareClick (handleSquareClick ⟨initialStore, none⟩ "e2").1
          "e2").1 "e2").1 "e2" ["e2e4", "e2e3"]).store.game.highlightedMoves =
      ["e2e4", "e2e3"] :=
  (C10_token_is_square_name ⟨initialStore, none⟩ "e2" ⟨'P', Side.white⟩ ["e2e4", "e2e3"]
    (by decide) (by decide) (by decide) (by decide) (by decide)).2.2

end ChessApp
